import Mathlib

/-!
Shallow embedding of `src/python/src/dynamixel_sdk/port_handler_can.py`:
the class `PortHandlerCAN`, a transport for the Waveshare WS-TTL-CAN
converter in transparent-conversion mode, and the factory function
`PortHandlerForWaveshareCAN`.

The base class `PortHandler` (Python module `port_handler`) is not among
the repository's source files; its operations (`__init__`, `closePort`,
`writePort`, `readPort`) are modelled from the specification's Base
Transport contract and are marked `Modelled from the spec` below.

Modelling conventions:
* Python byte values are `Nat` below 256; byte strings are `List Nat`.
* The pyserial handle `serial.Serial` is a `SerialPort` record holding the
  configuration passed to its constructor, the bytes pending in its input
  buffer, and the log of the write calls made on it (one entry per call,
  so a single unsplit forwarding is visible in the log).
* `print` output is collected as a returned list of lines.
* Per-byte timing: both the source and the reference formula are the one
  expression `(1000.0 / baudrate) * 10.0`, so the value is modelled
  exactly in the rationals.
* An exception escaping a method is an `Except.error` result; the outcome
  of the `serial.Serial` constructor call is supplied by a `SerialEnv`.
-/

/-- Module constant `LATENCY_TIMER = 16`. -/
def LATENCY_TIMER : Nat := 16

/-- Module constant `DEFAULT_BAUDRATE = 1000000`. -/
def DEFAULT_BAUDRATE : Nat := 1000000

/-- Module constant `DEFAULT_CAN_ID = 0x60`. -/
def DEFAULT_CAN_ID : Nat := 0x60

/-- Module constant `CAN_MAX_DATA_SIZE = 8`. -/
def CAN_MAX_DATA_SIZE : Nat := 8

/-- Module constant `CAN_EXTENDED_ID = 0x80000000`. -/
def CAN_EXTENDED_ID : Nat := 0x80000000

/-- pyserial constant `serial.EIGHTBITS`. -/
def EIGHTBITS : Nat := 8

/-- pyserial constant `serial.PARITY_NONE`. -/
def PARITY_NONE : Char := 'N'

/-- pyserial constant `serial.STOPBITS_ONE`. -/
def STOPBITS_ONE : Nat := 1

/-- A pyserial `serial.Serial` handle as `setupPort` constructs it: the
configuration given to the constructor, the bytes pending in the input
buffer, and the log of write calls made on the handle. -/
structure SerialPort where
  port : String
  baudrate : Nat
  bytesize : Nat
  parity : Char
  stopbits : Nat
  timeout : Nat
  inputBuffer : List Nat
  writtenCalls : List (List Nat)
deriving Repr, DecidableEq

/-- The state of a `PortHandlerCAN` instance: the fields the base
`PortHandler.__init__` sets (port name, baud rate, open flag, serial
handle, per-byte transmit time), plus the fields `PortHandlerCAN.__init__`
adds (CAN id, extended-id flag, CAN baud rate, the `_recv_buffer`
accumulation buffer, and the debug flag). -/
structure PortHandlerCAN where
  port_name : String
  baudrate : Nat
  is_open : Bool
  ser : Option SerialPort
  tx_time_per_byte : ℚ
  can_id : Nat
  extended_id : Bool
  can_baudrate : Nat
  recv_buffer : List Nat
  debug : Bool
deriving Repr, DecidableEq

/-- Modelled from the spec: the base `PortHandler.__init__` called by
`PortHandlerCAN.__init__` is not among the source files; per the spec
lifecycle a transport is constructed closed, with no channel handle, the
default baud rate and zero timing.  The CAN fields, the empty
`_recv_buffer` and the cleared debug flag are from the source
`PortHandlerCAN.__init__`. -/
def mkPortHandlerCAN (port_name : String) (can_id : Nat) (extended_id : Bool)
    (can_baudrate : Nat) : PortHandlerCAN :=
  { port_name := port_name
    baudrate := DEFAULT_BAUDRATE
    is_open := false
    ser := none
    tx_time_per_byte := 0
    can_id := can_id
    extended_id := extended_id
    can_baudrate := can_baudrate
    recv_buffer := []
    debug := false }

/-- Modelled from the spec: the base `PortHandler.closePort` is not among
the source files; it releases the underlying channel, is idempotent, and
leaves the transport closed with no channel handle. -/
def closePort (s : PortHandlerCAN) : PortHandlerCAN :=
  { s with is_open := false, ser := none }

/-- Modelled from the spec: the base `PortHandler.writePort` is not among
the source files.  Invoked while closed it fails explicitly and performs
no underlying I/O; while open it hands the whole buffer to the channel in
one call and returns the count written. -/
def base_writePort (s : PortHandlerCAN) (bs : List Nat) :
    Except String (Nat × PortHandlerCAN) :=
  if s.is_open = true then
    match s.ser with
    | some p =>
        Except.ok (bs.length,
          { s with ser := some { p with writtenCalls := p.writtenCalls ++ [bs] } })
    | none => Except.error "port not open"
  else Except.error "port not open"

/-- Modelled from the spec: the base `PortHandler.readPort` is not among
the source files.  Invoked while closed it fails explicitly and performs
no underlying I/O; while open it returns at once up to `length` of the
bytes currently available on the channel (possibly none). -/
def base_readPort (s : PortHandlerCAN) (length : Nat) :
    Except String (List Nat × PortHandlerCAN) :=
  if s.is_open = true then
    match s.ser with
    | some p =>
        Except.ok (p.inputBuffer.take length,
          { s with ser := some { p with inputBuffer := p.inputBuffer.drop length } })
    | none => Except.error "port not open"
  else Except.error "port not open"

/-- Python format `X` applied to a nonnegative integer: uppercase
hexadecimal digits, no leading zeros. -/
def formatHexUpper (n : Nat) : String :=
  String.mk ((Nat.toDigits 16 n).map Char.toUpper)

/-- Python format `02X` as the debug traces apply it to each byte:
uppercase hexadecimal, zero-padded to at least two digits. -/
def formatHex02X (n : Nat) : String :=
  let s := formatHexUpper n
  if s.length < 2 then "0" ++ s else s

/-- The hex dump the debug traces of `writePort` and `readPort` build:
the Python `join` over a single space of the `02X` format of each byte. -/
def hexDump (bs : List Nat) : String :=
  String.intercalate " " (bs.map formatHex02X)

/-- A `packet` argument of `writePort`: either a Python `bytes` or
`bytearray`, or a Python `list` of integers. -/
inductive Packet where
  | byteSeq (bs : List Nat)
  | intList (xs : List Nat)
deriving Repr, DecidableEq

/-- The byte values a packet holds.  `writePort` converts a `list` with
`bytearray(packet)`, which keeps the entries as byte values; a byte
sequence is passed through unchanged. -/
def normalizePacket : Packet → List Nat
  | Packet.byteSeq bs => bs
  | Packet.intList xs => xs

/-- `bytearray(packet)` accepts a list only when every entry is a byte
value below 256 (otherwise Python raises `ValueError`); `bytes` objects
satisfy this by construction. -/
def Packet.wf (p : Packet) : Prop :=
  ∀ b ∈ normalizePacket p, b < 256

/-- `PortHandlerCAN.writePort`: normalize a list packet with `bytearray`,
print the hex trace when the debug flag is set, then forward the bytes to
the base `writePort`.  Returns the result (the base count, or the escaping
error), the new state, and the printed lines. -/
def writePort (s : PortHandlerCAN) (packet : Packet) :
    Except String Nat × PortHandlerCAN × List String :=
  let bs := normalizePacket packet
  let out := if s.debug = true then ["[DEBUG] Writing packet: " ++ hexDump bs] else []
  match base_writePort s bs with
  | Except.ok (n, s2) => (Except.ok n, s2, out)
  | Except.error e => (Except.error e, s, out)

/-- `PortHandlerCAN.readPort`: forward to the base `readPort`; when the
debug flag is set and the data returned is non-empty, print the hex
trace.  Returns the result, the new state, and the printed lines. -/
def readPort (s : PortHandlerCAN) (length : Nat) :
    Except String (List Nat) × PortHandlerCAN × List String :=
  match base_readPort s length with
  | Except.ok (data, s2) =>
      let out :=
        if s.debug = true ∧ data ≠ [] then ["[DEBUG] Read data: " ++ hexDump data]
        else []
      (Except.ok data, s2, out)
  | Except.error e => (Except.error e, s, [])

/-- The outcome the environment gives the `serial.Serial` constructor call
inside `setupPort`: whether the underlying channel can be claimed, the
`SerialException` message when it cannot, and the bytes already pending on
the device when it can. -/
structure SerialEnv where
  claimOk : Bool
  errMsg : String
  pending : List Nat
deriving Repr, DecidableEq

/-- `PortHandlerCAN.setupPort`: close first when already open; construct
the serial handle with the fixed framing `EIGHTBITS`, `PARITY_NONE`,
`STOPBITS_ONE` and zero timeout at the configured baud rate; on success
mark the port open, reset the input buffer, recompute the per-byte
transmit time and return `true` (printing the configuration dump when the
debug flag is set); on a `SerialException` print the error message and
return `false`.  The `cflag_baud` argument is not used by the body. -/
def setupPort (env : SerialEnv) (s : PortHandlerCAN) (cflag_baud : Nat) :
    Bool × PortHandlerCAN × List String :=
  let s1 := if s.is_open = true then closePort s else s
  if env.claimOk = true then
    let p : SerialPort :=
      { port := s1.port_name
        baudrate := s1.baudrate
        bytesize := EIGHTBITS
        parity := PARITY_NONE
        stopbits := STOPBITS_ONE
        timeout := 0
        inputBuffer := env.pending
        writtenCalls := [] }
    let sOpened := { s1 with ser := some p, is_open := true }
    -- self.ser.reset_input_buffer()
    let sReset := { sOpened with ser := some { p with inputBuffer := [] } }
    let s2 := { sReset with tx_time_per_byte := (1000 / (s1.baudrate : ℚ)) * 10 }
    let out :=
      if s2.debug = true then
        ["[DEBUG] Port Configuration:",
         "  - Serial Port: " ++ s2.port_name,
         "  - Serial Baudrate: " ++ toString s2.baudrate,
         "  - CAN ID: 0x" ++ formatHexUpper s2.can_id ++
           (if s2.extended_id then " (Extended)" else " (Standard)"),
         "  - CAN Baudrate: " ++ toString s2.can_baudrate,
         "Note: Make sure the WS-TTL-CAN converter is configured with these settings"]
      else []
    (true, s2, out)
  else
    (false, s1, ["Error opening port: " ++ env.errMsg])

/-- `PortHandlerCAN.setDebug`. -/
def setDebug (s : PortHandlerCAN) (enable : Bool) : PortHandlerCAN :=
  { s with debug := enable }

/-- `PortHandlerCAN.printCANConfInstructions`: the lines it prints. -/
def printCANConfInstructions (s : PortHandlerCAN) : List String :=
  ["=== WS-TTL-CAN Configuration Instructions ===",
   "1. Download and open WS-CAN-TOOL software from Waveshare's website",
   "2. Connect the WS-TTL-CAN converter to your computer via USB-to-TTL converter",
   "3. Configure the following settings:",
   "   - Set 'Working Mode' to 'Transparent Conversion'",
   "   - Set 'CAN Baudrate' to " ++ toString s.can_baudrate ++ " bps",
   "   - Set 'Serial Baudrate' to " ++ toString s.baudrate ++ " bps",
   "   - Set 'Serial Data Bit' to 8",
   "   - Set 'Serial Stop Bit' to 1",
   "   - Set 'Serial Parity Bit' to None",
   "   - Set 'CAN ID' to 0x" ++ formatHexUpper s.can_id,
   "   - Set 'Frame Type' to " ++
     (if s.extended_id then "Extended Frame" else "Standard Frame"),
   "4. Click 'Save Device Parameters'",
   "5. Click 'Restart Device'",
   "==========================================="]

/-- The factory function `PortHandlerForWaveshareCAN`: construct the
handler and apply the debug flag via `setDebug`. -/
def PortHandlerForWaveshareCAN (port_name : String) (can_id : Nat)
    (extended_id : Bool) (can_baudrate : Nat) (debug : Bool) : PortHandlerCAN :=
  setDebug (mkPortHandlerCAN port_name can_id extended_id can_baudrate) debug

/-- A concrete serial handle for the concrete instances below. -/
def samplePort : SerialPort :=
  { port := "/dev/ttyUSB0", baudrate := 57600, bytesize := 8, parity := 'N',
    stopbits := 1, timeout := 0, inputBuffer := [255, 3, 1], writtenCalls := [] }

/-- A concrete open transport (debug enabled) for the concrete instances
below. -/
def sampleOpen : PortHandlerCAN :=
  { port_name := "/dev/ttyUSB0", baudrate := 57600, is_open := true,
    ser := some samplePort, tx_time_per_byte := (1000 / (57600 : ℚ)) * 10,
    can_id := DEFAULT_CAN_ID, extended_id := false, can_baudrate := 1000000,
    recv_buffer := [], debug := true }

/-- C1: for every baud rate r greater than 0, after a successful
`setupPort` with that baud rate configured, the exposed per-byte transmit
time `tx_time_per_byte` equals (1000.0 / r) * 10.0 exactly. -/
theorem C1_setupPort_tx_time (env : SerialEnv) (s : PortHandlerCAN)
    (cflag : Nat) (hr : 0 < s.baudrate)
    (hok : (setupPort env s cflag).1 = true) :
    (setupPort env s cflag).2.1.tx_time_per_byte =
      (1000 / (s.baudrate : ℚ)) * 10 := by
  by_cases hc : env.claimOk = true
  · by_cases ho : s.is_open = true <;> simp [setupPort, closePort, hc, ho]
  · simp [setupPort, hc] at hok

/-- C1 witness: a transport configured at 57600 baud, successfully set up,
exposes per-byte time (1000 / 57600) * 10. -/
theorem C1_setupPort_tx_time_witness :
    0 < sampleOpen.baudrate ∧
    (setupPort ⟨true, "", []⟩ sampleOpen 0).1 = true ∧
    (setupPort ⟨true, "", []⟩ sampleOpen 0).2.1.tx_time_per_byte =
      (1000 / (sampleOpen.baudrate : ℚ)) * 10 :=
  ⟨by decide, by decide,
    C1_setupPort_tx_time ⟨true, "", []⟩ sampleOpen 0 (by decide) (by decide)⟩

/-- C2: with the transport closed, `writePort` and `readPort` both fail
with an explicit error (never an empty success) and leave the state
untouched, so no underlying I/O happens. -/
theorem C2_closed_read_write_fail (s : PortHandlerCAN) (packet : Packet)
    (length : Nat) (h : s.is_open = false) :
    (writePort s packet).1 = Except.error "port not open" ∧
    (writePort s packet).2.1 = s ∧
    (readPort s length).1 = Except.error "port not open" ∧
    (readPort s length).2.1 = s := by
  simp [writePort, readPort, base_writePort, base_readPort, h]

/-- C2 witness: a freshly constructed (hence closed) transport rejects a
write of three bytes and a read of six bytes, its state unchanged. -/
theorem C2_closed_read_write_fail_witness :
    (mkPortHandlerCAN "/dev/ttyUSB0" DEFAULT_CAN_ID false 1000000).is_open = false ∧
    ((writePort (mkPortHandlerCAN "/dev/ttyUSB0" DEFAULT_CAN_ID false 1000000)
        (Packet.intList [1, 2, 255])).1 = Except.error "port not open" ∧
     (writePort (mkPortHandlerCAN "/dev/ttyUSB0" DEFAULT_CAN_ID false 1000000)
        (Packet.intList [1, 2, 255])).2.1 =
       mkPortHandlerCAN "/dev/ttyUSB0" DEFAULT_CAN_ID false 1000000 ∧
     (readPort (mkPortHandlerCAN "/dev/ttyUSB0" DEFAULT_CAN_ID false 1000000) 6).1 =
       Except.error "port not open" ∧
     (readPort (mkPortHandlerCAN "/dev/ttyUSB0" DEFAULT_CAN_ID false 1000000) 6).2.1 =
       mkPortHandlerCAN "/dev/ttyUSB0" DEFAULT_CAN_ID false 1000000) :=
  ⟨rfl, C2_closed_read_write_fail
    (mkPortHandlerCAN "/dev/ttyUSB0" DEFAULT_CAN_ID false 1000000)
    (Packet.intList [1, 2, 255]) 6 rfl⟩

/-- C3: when the underlying channel cannot be claimed, `setupPort` returns
the failure flag `false` with the error message printed (the exception
does not escape the call), and the transport ends closed. -/
theorem C3_setupPort_failure (env : SerialEnv) (s : PortHandlerCAN)
    (cflag : Nat) (hfail : env.claimOk = false) :
    (setupPort env s cflag).1 = false ∧
    (setupPort env s cflag).2.1.is_open = false ∧
    (setupPort env s cflag).2.2 = ["Error opening port: " ++ env.errMsg] := by
  by_cases ho : s.is_open = true <;> simp [setupPort, closePort, hfail, ho]

/-- C3 witness: a claim failure with message "Permission denied" on an
open transport returns false and leaves it closed. -/
theorem C3_setupPort_failure_witness :
    (⟨false, "Permission denied", []⟩ : SerialEnv).claimOk = false ∧
    ((setupPort ⟨false, "Permission denied", []⟩ sampleOpen 0).1 = false ∧
     (setupPort ⟨false, "Permission denied", []⟩ sampleOpen 0).2.1.is_open = false ∧
     (setupPort ⟨false, "Permission denied", []⟩ sampleOpen 0).2.2 =
       ["Error opening port: " ++ (⟨false, "Permission denied", []⟩ : SerialEnv).errMsg]) :=
  ⟨rfl, C3_setupPort_failure ⟨false, "Permission denied", []⟩ sampleOpen 0 rfl⟩

/-- C4: `setupPort` on an already open transport equals closing first and
then running the same call, and on success it ends open with a brand-new
serial handle (empty buffers, fixed framing) and the per-byte timing
freshly recomputed from the configured baud rate. -/
theorem C4_setupPort_reopen (env : SerialEnv) (s : PortHandlerCAN)
    (cflag : Nat) (hopen : s.is_open = true) (hok : env.claimOk = true) :
    setupPort env s cflag = setupPort env (closePort s) cflag ∧
    (setupPort env s cflag).1 = true ∧
    (setupPort env s cflag).2.1.is_open = true ∧
    (setupPort env s cflag).2.1.tx_time_per_byte =
      (1000 / (s.baudrate : ℚ)) * 10 ∧
    (setupPort env s cflag).2.1.ser =
      some { port := s.port_name, baudrate := s.baudrate,
             bytesize := EIGHTBITS, parity := PARITY_NONE,
             stopbits := STOPBITS_ONE, timeout := 0, inputBuffer := [],
             writtenCalls := [] } := by
  refine ⟨?_, ?_, ?_, ?_, ?_⟩ <;> simp [setupPort, closePort, hopen, hok]

/-- C4 witness: re-running `setupPort` on the open sample transport. -/
theorem C4_setupPort_reopen_witness :
    sampleOpen.is_open = true ∧
    (⟨true, "", [4, 5]⟩ : SerialEnv).claimOk = true ∧
    (setupPort ⟨true, "", [4, 5]⟩ sampleOpen 7 =
       setupPort ⟨true, "", [4, 5]⟩ (closePort sampleOpen) 7 ∧
     (setupPort ⟨true, "", [4, 5]⟩ sampleOpen 7).1 = true ∧
     (setupPort ⟨true, "", [4, 5]⟩ sampleOpen 7).2.1.is_open = true ∧
     (setupPort ⟨true, "", [4, 5]⟩ sampleOpen 7).2.1.tx_time_per_byte =
       (1000 / (sampleOpen.baudrate : ℚ)) * 10 ∧
     (setupPort ⟨true, "", [4, 5]⟩ sampleOpen 7).2.1.ser =
       some { port := sampleOpen.port_name, baudrate := sampleOpen.baudrate,
              bytesize := EIGHTBITS, parity := PARITY_NONE,
              stopbits := STOPBITS_ONE, timeout := 0, inputBuffer := [],
              writtenCalls := [] }) :=
  ⟨rfl, rfl, C4_setupPort_reopen ⟨true, "", [4, 5]⟩ sampleOpen 7 rfl rfl⟩

/-- C5: on an open transport, `writePort` normalizes the packet to its
byte values and forwards exactly those bytes, unsplit, in a single call to
the base transport write (the handle's write log grows by that one full
entry, whatever the packet's length), and the count it returns is the base
transport's count. -/
theorem C5_writePort_forwards (s : PortHandlerCAN) (packet : Packet)
    (p : SerialPort) (hwf : Packet.wf packet) (hopen : s.is_open = true)
    (hser : s.ser = some p) :
    (writePort s packet).1 =
      Except.map Prod.fst (base_writePort s (normalizePacket packet)) ∧
    (writePort s packet).1 = Except.ok (normalizePacket packet).length ∧
    (writePort s packet).2.1.ser =
      some { p with writtenCalls := p.writtenCalls ++ [normalizePacket packet] } := by
  simp [writePort, base_writePort, hopen, hser, Except.map]

/-- C5 witness: a ten-entry list packet (longer than one CAN frame's eight
bytes) goes to the base write whole, as one log entry, count ten. -/
theorem C5_writePort_forwards_witness :
    Packet.wf (Packet.intList [1, 2, 3, 4, 5, 6, 7, 8, 9, 10]) ∧
    sampleOpen.is_open = true ∧
    sampleOpen.ser = some samplePort ∧
    ((writePort sampleOpen (Packet.intList [1, 2, 3, 4, 5, 6, 7, 8, 9, 10])).1 =
       Except.map Prod.fst (base_writePort sampleOpen
         (normalizePacket (Packet.intList [1, 2, 3, 4, 5, 6, 7, 8, 9, 10]))) ∧
     (writePort sampleOpen (Packet.intList [1, 2, 3, 4, 5, 6, 7, 8, 9, 10])).1 =
       Except.ok (normalizePacket (Packet.intList [1, 2, 3, 4, 5, 6, 7, 8, 9, 10])).length ∧
     (writePort sampleOpen (Packet.intList [1, 2, 3, 4, 5, 6, 7, 8, 9, 10])).2.1.ser =
       some { samplePort with writtenCalls := samplePort.writtenCalls ++
         [normalizePacket (Packet.intList [1, 2, 3, 4, 5, 6, 7, 8, 9, 10])] }) :=
  ⟨by simp only [Packet.wf, normalizePacket]; decide, rfl, rfl,
    C5_writePort_forwards sampleOpen (Packet.intList [1, 2, 3, 4, 5, 6, 7, 8, 9, 10])
      samplePort (by simp only [Packet.wf, normalizePacket]; decide) rfl rfl⟩

/-- C6: the results of `writePort` and `readPort` and the success flag of
`setupPort` are identical whether the debug flag is enabled or disabled,
and the resulting transport states agree on everything except the flag
itself: the flag affects only trace output. -/
theorem C6_debug_noninterference (s : PortHandlerCAN) (d1 d2 : Bool)
    (packet : Packet) (length cflag : Nat) (env : SerialEnv) :
    (writePort (setDebug s d1) packet).1 = (writePort (setDebug s d2) packet).1 ∧
    setDebug (writePort (setDebug s d1) packet).2.1 d2 =
      (writePort (setDebug s d2) packet).2.1 ∧
    (readPort (setDebug s d1) length).1 = (readPort (setDebug s d2) length).1 ∧
    setDebug (readPort (setDebug s d1) length).2.1 d2 =
      (readPort (setDebug s d2) length).2.1 ∧
    (setupPort env (setDebug s d1) cflag).1 =
      (setupPort env (setDebug s d2) cflag).1 ∧
    setDebug (setupPort env (setDebug s d1) cflag).2.1 d2 =
      (setupPort env (setDebug s d2) cflag).2.1 := by
  by_cases ho : s.is_open = true <;> cases hs : s.ser <;>
    by_cases hc : env.claimOk = true <;>
      simp [writePort, readPort, setupPort, base_writePort, base_readPort,
        closePort, setDebug, ho, hs, hc]

/-- Helper: the trace a write prints does not depend on the base write's
outcome, only on the debug flag and the packet bytes. -/
theorem writePort_trace (s : PortHandlerCAN) (packet : Packet) :
    (writePort s packet).2.2 =
      (if s.debug = true then
        ["[DEBUG] Writing packet: " ++ hexDump (normalizePacket packet)]
      else []) := by
  unfold writePort
  dsimp only
  rcases h : base_writePort s (normalizePacket packet) with e | r <;> rfl

/-- C7: with the debug flag set, every write prints the trace built from
the two-digit uppercase hexadecimal form of each byte in order, joined by
single spaces; the bytes 01 02 FF trace exactly as "01 02 FF"; and a read
prints such a trace exactly when its result is non-empty. -/
theorem C7_debug_trace (s : PortHandlerCAN) (packet : Packet) (length : Nat)
    (hdbg : s.debug = true) :
    (writePort s packet).2.2 =
      ["[DEBUG] Writing packet: " ++ hexDump (normalizePacket packet)] ∧
    hexDump [1, 2, 255] = "01 02 FF" ∧
    (writePort s (Packet.byteSeq [1, 2, 255])).2.2 =
      ["[DEBUG] Writing packet: 01 02 FF"] ∧
    (readPort s length).2.2 =
      (match base_readPort s length with
        | Except.ok (data, _) =>
            if data = [] then [] else ["[DEBUG] Read data: " ++ hexDump data]
        | Except.error _ => []) := by
  refine ⟨?_, by decide, ?_, ?_⟩
  · simp [writePort_trace, hdbg]
  · rw [writePort_trace, hdbg]
    simp only [normalizePacket]
    decide
  · unfold readPort
    cases h : base_readPort s length with
    | error e => simp [h]
    | ok r =>
        by_cases hd : r.1 = [] <;> simp [h, hdbg, hd]

/-- C7 witness: on the open sample transport (debug enabled), writing the
bytes 01 02 FF and reading produce the claimed traces. -/
theorem C7_debug_trace_witness :
    sampleOpen.debug = true ∧
    ((writePort sampleOpen (Packet.byteSeq [1, 2, 255])).2.2 =
       ["[DEBUG] Writing packet: " ++
          hexDump (normalizePacket (Packet.byteSeq [1, 2, 255]))] ∧
     hexDump [1, 2, 255] = "01 02 FF" ∧
     (writePort sampleOpen (Packet.byteSeq [1, 2, 255])).2.2 =
       ["[DEBUG] Writing packet: 01 02 FF"] ∧
     (readPort sampleOpen 2).2.2 =
       (match base_readPort sampleOpen 2 with
         | Except.ok (data, _) =>
             if data = [] then [] else ["[DEBUG] Read data: " ++ hexDump data]
         | Except.error _ => [])) :=
  ⟨rfl, C7_debug_trace sampleOpen (Packet.byteSeq [1, 2, 255]) 2 rfl⟩

/-- C8: a successful `setupPort` installs a serial handle with exactly the
fixed framing of 8 data bits, parity none, 1 stop bit and a zero
(non-blocking) read timeout at the configured baud rate, with the receive
buffer cleared of any pending bytes; the framing does not depend on the
call's argument. -/
theorem C8_setupPort_framing (env : SerialEnv) (s : PortHandlerCAN)
    (cflag cflag2 : Nat) (hok : env.claimOk = true) :
    (setupPort env s cflag).2.1.ser =
      some { port := s.port_name, baudrate := s.baudrate, bytesize := 8,
             parity := 'N', stopbits := 1, timeout := 0, inputBuffer := [],
             writtenCalls := [] } ∧
    (setupPort env s cflag).2.1.ser = (setupPort env s cflag2).2.1.ser := by
  by_cases ho : s.is_open = true <;>
    simp [setupPort, closePort, EIGHTBITS, PARITY_NONE, STOPBITS_ONE, hok, ho]

/-- C8 witness: a successful setup of the sample transport, with three
bytes pending on the device at open, still ends with an empty input
buffer and the fixed 8-N-1 zero-timeout framing. -/
theorem C8_setupPort_framing_witness :
    (⟨true, "", [7, 8, 9]⟩ : SerialEnv).claimOk = true ∧
    ((setupPort ⟨true, "", [7, 8, 9]⟩ sampleOpen 3).2.1.ser =
       some { port := sampleOpen.port_name, baudrate := sampleOpen.baudrate,
              bytesize := 8, parity := 'N', stopbits := 1, timeout := 0,
              inputBuffer := [], writtenCalls := [] } ∧
     (setupPort ⟨true, "", [7, 8, 9]⟩ sampleOpen 3).2.1.ser =
       (setupPort ⟨true, "", [7, 8, 9]⟩ sampleOpen 11).2.1.ser) :=
  ⟨rfl, C8_setupPort_framing ⟨true, "", [7, 8, 9]⟩ sampleOpen 3 11 rfl⟩

/-- C9: the advisory configuration output enumerates the settings in
exactly the order working mode "Transparent Conversion", CAN baud rate,
serial baud rate, serial data bits 8, serial stop bits 1, serial parity
none, CAN identifier in hexadecimal, then frame type standard or extended
according to the extended-identifier flag, using the instance's values. -/
theorem C9_conf_instructions_order (s : PortHandlerCAN) :
    printCANConfInstructions s =
      ["=== WS-TTL-CAN Configuration Instructions ===",
       "1. Download and open WS-CAN-TOOL software from Waveshare's website",
       "2. Connect the WS-TTL-CAN converter to your computer via USB-to-TTL converter",
       "3. Configure the following settings:"] ++
      ["   - Set 'Working Mode' to 'Transparent Conversion'",
       "   - Set 'CAN Baudrate' to " ++ toString s.can_baudrate ++ " bps",
       "   - Set 'Serial Baudrate' to " ++ toString s.baudrate ++ " bps",
       "   - Set 'Serial Data Bit' to 8",
       "   - Set 'Serial Stop Bit' to 1",
       "   - Set 'Serial Parity Bit' to None",
       "   - Set 'CAN ID' to 0x" ++ formatHexUpper s.can_id,
       "   - Set 'Frame Type' to " ++
         (if s.extended_id then "Extended Frame" else "Standard Frame")] ++
      ["4. Click 'Save Device Parameters'",
       "5. Click 'Restart Device'",
       "==========================================="] := by
  rfl

/-- C10: the internal receive accumulation buffer is empty at construction
and no operation writes to or consumes it (`writePort`, `readPort`,
`setupPort` and `setDebug` leave it exactly as it was, and
`printCANConfInstructions` is a pure function of the state), and
`readPort` hands back exactly the bytes the base transport read. -/
theorem C10_recv_buffer_unused (port_name : String) (can_id cb : Nat)
    (ext e : Bool) (s : PortHandlerCAN) (packet : Packet)
    (length cflag : Nat) (env : SerialEnv) :
    (mkPortHandlerCAN port_name can_id ext cb).recv_buffer = [] ∧
    (writePort s packet).2.1.recv_buffer = s.recv_buffer ∧
    (readPort s length).2.1.recv_buffer = s.recv_buffer ∧
    (setupPort env s cflag).2.1.recv_buffer = s.recv_buffer ∧
    (setDebug s e).recv_buffer = s.recv_buffer ∧
    (readPort s length).1 = Except.map Prod.fst (base_readPort s length) := by
  by_cases ho : s.is_open = true <;> cases hs : s.ser <;>
    by_cases hc : env.claimOk = true <;>
      simp [mkPortHandlerCAN, writePort, readPort, setupPort, base_writePort,
        base_readPort, closePort, setDebug, Except.map, ho, hs, hc]
